import Mathlib

/-!
Verification of the hotel-rating aggregator's consolidation and fallback
logic (src/consolidador.py and src/sites/booking/scraper.py,
src/sites/google/scraper.py, src/sites/decolar/scraper.py), via a
shallow embedding of the Python code.

Conventions of the embedding:
* Python floats are modelled by exact fractions (`PyFloat`, an integer
  numerator over a positive integer denominator, kept unnormalized so
  that all arithmetic is kernel-computable); every float literal and
  every arithmetic result appearing in the program's data paths is an
  exact decimal, so no floating-point rounding behaviour is lost on the
  values the claims are about.  `PyFloat.toRat` gives the represented
  rational for use in statements.
* JSON/Python values are modelled by the inductive type `JVal`; a
  Python dict is a `List (String × JVal)` in insertion order;
  `dictSet`/`dictUpdate` implement `d[k] = v` / `d.update(...)`
  (replace in place when the key is present, append otherwise).
* A raised exception is modelled by `Option.none`; fallible coercions
  (`float(x)`, `int(x)`) and fallible operations therefore return
  `Option`.
-/

/-- An exact fraction representing a Python float: `num / den` with
`den > 0` maintained by all operations below.  Kept unnormalized (no
gcd) so that equality of results is checked semantically via `toRat`. -/
structure PyFloat where
  num : Int
  den : Int
deriving DecidableEq

/-- The rational value represented by a `PyFloat`. -/
def PyFloat.toRat (x : PyFloat) : ℚ := (x.num : ℚ) / (x.den : ℚ)

/-- A float literal with integer value. -/
def PyFloat.ofInt (n : Int) : PyFloat := ⟨n, 1⟩

def PyFloat.add (a b : PyFloat) : PyFloat :=
  ⟨a.num * b.den + b.num * a.den, a.den * b.den⟩

def PyFloat.sub (a b : PyFloat) : PyFloat :=
  ⟨a.num * b.den - b.num * a.den, a.den * b.den⟩

def PyFloat.mul (a b : PyFloat) : PyFloat :=
  ⟨a.num * b.num, a.den * b.den⟩

/-- Division; restores the positive-denominator invariant when the
divisor is negative.  (Division by zero, which the program never
performs on its data paths, is not modelled.) -/
def PyFloat.div (a b : PyFloat) : PyFloat :=
  if b.num < 0 then ⟨-(a.num * b.den), -(a.den * b.num)⟩
  else ⟨a.num * b.den, a.den * b.num⟩

/-- Strict comparison (cross-multiplication; denominators positive). -/
def PyFloat.lt (a b : PyFloat) : Bool := a.num * b.den < b.num * a.den

/-- Python `min(a, b)`: returns the first argument on ties. -/
def pymin (a b : PyFloat) : PyFloat := if PyFloat.lt b a then b else a

/-- Python `max(a, b)`: returns the first argument on ties. -/
def pymax (a b : PyFloat) : PyFloat := if PyFloat.lt a b then b else a

/-- Floor to an integer (denominator positive, so `Int.fdiv`). -/
def PyFloat.floor (x : PyFloat) : Int := x.num.fdiv x.den

/-- Truncation toward zero, the behaviour of Python `int()` on a float. -/
def PyFloat.trunc (x : PyFloat) : Int := x.num.tdiv x.den

/-- Round-half-to-even to an integer, the tie rule of Python `round`. -/
def roundHalfEven (x : PyFloat) : Int :=
  let f := x.floor
  let r := x.num - f * x.den
  if 2 * r < x.den then f
  else if x.den < 2 * r then f + 1
  else if f % 2 = 0 then f else f + 1

/-- Python `round(x, 2)` (on the exact represented value). -/
def pyRound2 (x : PyFloat) : PyFloat := ⟨roundHalfEven (x.mul ⟨100, 1⟩), 100⟩

/-- Python `round(x, 1)` (on the exact represented value). -/
def pyRound1 (x : PyFloat) : PyFloat := ⟨roundHalfEven (x.mul ⟨10, 1⟩), 10⟩

/-- A JSON / Python value as produced by `json.load`. -/
inductive JVal where
  | null
  | bool (b : Bool)
  | int (n : Int)
  | float (x : PyFloat)
  | str (s : String)
  | arr (xs : List JVal)
  | obj (kvs : List (String × JVal))

/-- A Python dict with string keys, in insertion order. -/
abbrev PyDict := List (String × JVal)

/-- `d.get(k, default)`. -/
def dictGet (d : PyDict) (k : String) (default : JVal) : JVal :=
  (List.lookup k d).getD default

/-- `d[k] = v`: replace the value in place when `k` is already a key of
`d`, append `(k, v)` otherwise. -/
def dictSet (d : PyDict) (k : String) (v : JVal) : PyDict :=
  if d.any (fun p => p.1 == k) then
    d.map (fun p => if p.1 == k then (k, v) else p)
  else
    d ++ [(k, v)]

/-- `d.update(other)`: apply `dictSet` for each pair of `other` in order. -/
def dictUpdate (d : PyDict) (other : PyDict) : PyDict :=
  other.foldl (fun acc p => dictSet acc p.1 p.2) d

/-- Calling a `str` method on a value: succeeds only on strings
(anything else raises `AttributeError`, modelled by `none`). -/
def asStr : JVal → Option String
  | .str s => some s
  | _ => none

/-- Iterating over a value: succeeds only on lists. -/
def asArr : JVal → Option (List JVal)
  | .arr xs => some xs
  | _ => none

/-- Calling `.get` on a value: succeeds only on dicts. -/
def asObj : JVal → Option PyDict
  | .obj kvs => some kvs
  | _ => none

/-- Decimal digit test. -/
def isDigitCh (c : Char) : Bool := '0' ≤ c && c ≤ '9'

/-- Value of a digit list, most significant first (digits assumed valid). -/
def digitsVal (cs : List Char) : ℕ :=
  cs.foldl (fun acc c => 10 * acc + (c.toNat - '0'.toNat)) 0

/-- `float(s)` on a string: strips spaces, then an optional sign, an
integer part and an optional fractional part.  (Exponents, `inf`/`nan`
and underscores, which the program's data never contains, are not
modelled and are treated as parse failures.) -/
def pyParseFloat (s : String) : Option PyFloat :=
  let cs := ((s.data.dropWhile (fun c => c == ' ')).reverse.dropWhile
    (fun c => c == ' ')).reverse
  let sgn : Int × List Char :=
    match cs with
    | '-' :: rest => (-1, rest)
    | '+' :: rest => (1, rest)
    | _ => (1, cs)
  let intPart := sgn.2.takeWhile isDigitCh
  let rest := sgn.2.dropWhile isDigitCh
  match rest with
  | [] =>
      if intPart.isEmpty then none
      else some ⟨sgn.1 * (digitsVal intPart : Int), 1⟩
  | '.' :: frac =>
      if frac.all isDigitCh && !(intPart.isEmpty && frac.isEmpty) then
        some ⟨sgn.1 * ((digitsVal intPart : Int) * (10 ^ frac.length : Int) +
          (digitsVal frac : Int)), (10 ^ frac.length : Int)⟩
      else none
  | _ => none

/-- `int(s)` on a string: strips spaces, optional sign, then a nonempty
digit run. -/
def pyParseInt (s : String) : Option Int :=
  let cs := ((s.data.dropWhile (fun c => c == ' ')).reverse.dropWhile
    (fun c => c == ' ')).reverse
  let sgn : Int × List Char :=
    match cs with
    | '-' :: rest => (-1, rest)
    | '+' :: rest => (1, rest)
    | _ => (1, cs)
  if !sgn.2.isEmpty && sgn.2.all isDigitCh then
    some (sgn.1 * (digitsVal sgn.2 : Int))
  else none

/-- Python `float(x)`.  `none` models a raised `TypeError`/`ValueError`. -/
def pyFloat : JVal → Option PyFloat
  | .null => none
  | .bool b => some (.ofInt (if b then 1 else 0))
  | .int n => some (.ofInt n)
  | .float x => some x
  | .str s => pyParseFloat s
  | .arr _ => none
  | .obj _ => none

/-- Python `int(x)`.  `none` models a raised `TypeError`/`ValueError`. -/
def pyInt : JVal → Option Int
  | .null => none
  | .bool b => some (if b then 1 else 0)
  | .int n => some n
  | .float x => some x.trunc
  | .str s => pyParseInt s
  | .arr _ => none
  | .obj _ => none

/-- Python `str.lower()` on one character, for the ASCII range and the
Latin-1 accented uppercase letters (the repertoire of the program's
hotel names); other characters are left unchanged. -/
def pyCharLower (c : Char) : Char :=
  if ('A' ≤ c && c ≤ 'Z') || ('À' ≤ c && c ≤ 'Þ' && c ≠ '×') then
    Char.ofNat (c.toNat + 32)
  else c

/-- Python `str.lower()`. -/
def pyLower (s : String) : String := ⟨s.data.map pyCharLower⟩

/-- One pass of `str.replace`: replace left-to-right, non-overlapping.
`fuel` bounds the recursion (each step consumes at least one character
when the pattern is nonempty, so `fuel = length` suffices; the program
never replaces an empty pattern). -/
def replaceFuel (pat rep : List Char) : ℕ → List Char → List Char
  | 0, s => s
  | _ + 1, [] => []
  | fuel + 1, c :: cs =>
    if !pat.isEmpty && pat.isPrefixOf (c :: cs) then
      rep ++ replaceFuel pat rep fuel ((c :: cs).drop pat.length)
    else
      c :: replaceFuel pat rep fuel cs

/-- Python `s.replace(pat, rep)` (for nonempty `pat`). -/
def pyReplace (s pat rep : String) : String :=
  ⟨replaceFuel pat.data rep.data s.data.length s.data⟩

/-- `DataConsolidator._generate_hotel_id`:
`hotel_name.lower().replace(' ', '_').replace('hotel_', '')
.replace('ç', 'c').replace('ã', 'a')`. -/
def generateHotelId (hotel_name : String) : String :=
  pyReplace (pyReplace (pyReplace (pyReplace (pyLower hotel_name)
    " " "_") "hotel_" "") "ç" "c") "ã" "a"

/-- `DataConsolidator.site_configs` (static descriptive metadata). -/
def siteConfigs (site : String) : PyDict :=
  if site = "tripadvisor" then
    [("nome", .str "TripAdvisor"), ("rating_scale", .str "1-5"),
     ("extraction_method", .str "GraphQL API"),
     ("description", .str "Maior plataforma de reviews de turismo do mundo")]
  else if site = "booking" then
    [("nome", .str "Booking.com"), ("rating_scale", .str "1-10"),
     ("extraction_method", .str "HTML Parsing + Anti-block"),
     ("description", .str "Líder mundial em reservas de hospedagem")]
  else if site = "google" then
    [("nome", .str "Google Places"), ("rating_scale", .str "1-5"),
     ("extraction_method", .str "Official Places API"),
     ("description", .str "API oficial do Google com dados em tempo real")]
  else if site = "decolar" then
    [("nome", .str "Decolar"), ("rating_scale", .str "1-10"),
     ("extraction_method", .str "HTML Parsing + Fallback"),
     ("description", .str "Maior OTA da América Latina")]
  else []

/-- The base dict `normalized` of `_normalize_hotel_data` (defaults). -/
def baseNormalized (site : String) : PyDict :=
  [("hotel_id", .str ""), ("hotel_name", .str ""),
   ("rating", .float ⟨0, 1⟩), ("review_count", .int 0),
   ("max_rating", .float ⟨5, 1⟩), ("url", .str ""), ("source", .str ""),
   ("data_source", .str ""), ("extraction_timestamp", .str ""),
   ("site", .str site), ("additional_info", .obj [])]

/-- The `site == 'tripadvisor'` branch of `_normalize_hotel_data`. -/
def tripadvisorUpdate (hd : PyDict) : Option PyDict := do
  let rating ← pyFloat (dictGet hd "rating" (.int 0))
  let reviewCount ← pyInt (dictGet hd "review_count" (.int 0))
  pure [("hotel_id", dictGet hd "hotel_id" (.str "")),
        ("hotel_name", dictGet hd "hotel_name" (.str "")),
        ("rating", .float rating),
        ("review_count", .int reviewCount),
        ("max_rating", .float ⟨5, 1⟩),
        ("url", dictGet hd "hotel_url" (.str "")),
        ("source", dictGet hd "source" (.str "")),
        ("data_source", dictGet hd "data_source" (.str "")),
        ("extraction_timestamp", dictGet hd "extraction_timestamp" (.str "")),
        ("additional_info", .obj [("reviews", dictGet hd "reviews" (.arr []))])]

/-- The `site == 'booking'` branch of `_normalize_hotel_data`.  The
values of the update dict are evaluated in order, so a failing
`_generate_hotel_id` (non-string name), `float` or `int` aborts. -/
def bookingUpdate (hd : PyDict) : Option PyDict := do
  let nm ← asStr (dictGet hd "hotel_name" (.str ""))
  let rating ← pyFloat (dictGet hd "rating" (.int 0))
  let reviews ← pyInt (dictGet hd "reviews" (.int 0))
  let maxRating ← pyFloat (dictGet hd "max_rating" (.float ⟨10, 1⟩))
  pure [("hotel_id", .str (generateHotelId nm)),
        ("hotel_name", dictGet hd "hotel_name" (.str "")),
        ("rating", .float rating),
        ("review_count", .int reviews),
        ("max_rating", .float maxRating),
        ("url", dictGet hd "url" (.str "")),
        ("source", dictGet hd "source" (.str "")),
        ("data_source", .str "html_parsing"),
        ("extraction_timestamp", dictGet hd "timestamp" (.str "")),
        ("additional_info", .obj [])]

/-- The `site == 'google'` branch of `_normalize_hotel_data`. -/
def googleUpdate (hd : PyDict) : Option PyDict := do
  let rating ← pyFloat (dictGet hd "rating" (.int 0))
  let reviewCount ← pyInt (dictGet hd "review_count" (.int 0))
  let maxRating ← pyFloat (dictGet hd "max_rating" (.float ⟨5, 1⟩))
  pure [("hotel_id", dictGet hd "hotel_id" (.str "")),
        ("hotel_name", dictGet hd "hotel_name" (.str "")),
        ("rating", .float rating),
        ("review_count", .int reviewCount),
        ("max_rating", .float maxRating),
        ("url", dictGet hd "google_url" (.str "")),
        ("source", dictGet hd "source" (.str "")),
        ("data_source", dictGet hd "data_source" (.str "")),
        ("extraction_timestamp", dictGet hd "extraction_timestamp" (.str "")),
        ("additional_info",
          .obj [("hotel_search_term", dictGet hd "hotel_search_term" (.str ""))])]

/-- The `site == 'decolar'` branch of `_normalize_hotel_data`. -/
def decolarUpdate (hd : PyDict) : Option PyDict := do
  let rating ← pyFloat (dictGet hd "rating" (.int 0))
  let reviewCount ← pyInt (dictGet hd "review_count" (.int 0))
  pure [("hotel_id", dictGet hd "hotel_id" (.str "")),
        ("hotel_name", dictGet hd "hotel_name" (.str "")),
        ("rating", .float rating),
        ("review_count", .int reviewCount),
        ("max_rating", .float ⟨10, 1⟩),
        ("url", dictGet hd "hotel_url" (.str "")),
        ("source", dictGet hd "source" (.str "")),
        ("data_source", dictGet hd "data_source" (.str "")),
        ("extraction_timestamp", dictGet hd "extraction_timestamp" (.str "")),
        ("additional_info", .obj [("reviews", dictGet hd "reviews" (.arr []))])]

/-- `DataConsolidator._normalize_hotel_data(hotel_data, site)`:
start from the base dict, then `normalized.update(...)` with the
site-specific mapping; an unknown site returns the base dict as is.
`none` models an exception raised by a numeric coercion. -/
def normalizeHotelData (hd : PyDict) (site : String) : Option PyDict :=
  let normalized := baseNormalized site
  if site = "tripadvisor" then
    (tripadvisorUpdate hd).map (dictUpdate normalized)
  else if site = "booking" then
    (bookingUpdate hd).map (dictUpdate normalized)
  else if site = "google" then
    (googleUpdate hd).map (dictUpdate normalized)
  else if site = "decolar" then
    (decolarUpdate hd).map (dictUpdate normalized)
  else
    some normalized

/-- `h['rating']` on a normalized record.  Every record built by
`_normalize_hotel_data` carries a float here, so only that shape is
meaningful; other shapes are unreachable on normalized records. -/
def ratingOf (h : PyDict) : PyFloat :=
  match List.lookup "rating" h with
  | some (.float x) => x
  | _ => ⟨0, 1⟩

/-- `h['review_count']` on a normalized record (always an int there). -/
def reviewCountOf (h : PyDict) : Int :=
  match List.lookup "review_count" h with
  | some (.int n) => n
  | _ => 0

/-- Python `sum` of the ratings of a hotel list (starts from `0`). -/
def sumRatings (hs : List PyDict) : PyFloat :=
  hs.foldl (fun acc h => acc.add (ratingOf h)) ⟨0, 1⟩

/-- Python `sum` of the review counts of a hotel list. -/
def sumReviews (hs : List PyDict) : Int :=
  hs.foldl (fun acc h => acc + reviewCountOf h) 0

/-- The normalization loop of `normalize_site_data`: iterate over
`site_data.get('hoteis', [])` (iterating a non-list raises, as does
`.get` on a non-dict element) and normalize each hotel. -/
def normalizeHotels (site_data : PyDict) (site : String) :
    Option (List PyDict) := do
  let hoteis ← asArr (dictGet site_data "hoteis" (.arr []))
  hoteis.mapM (fun h => do
    let hd ← asObj h
    normalizeHotelData hd site)

/-- The report dict built by `normalize_site_data` from the normalized
hotel list: `site_info`, `metadata` (with `extraction_stats`), and the
hotels.  `rating_medio` over an empty list is the int `0`. -/
def siteReport (site : String) (site_data : PyDict)
    (hotels : List PyDict) : Option PyDict := do
  let md ← asObj (dictGet site_data "metadata" (.obj []))
  pure [("site_info", .obj (siteConfigs site)),
        ("metadata", .obj [
          ("total_hoteis", .int hotels.length),
          ("timestamp_extracao", dictGet md "timestamp_extracao" (.str "")),
          ("versao_scraper", dictGet md "versao_scraper" (.str "")),
          ("extraction_stats", .obj [
            ("sucesso", .int hotels.length),
            ("total_avaliacoes", .int (sumReviews hotels)),
            ("rating_medio",
              if hotels.isEmpty then .int 0
              else .float (pyRound2
                ((sumRatings hotels).div ⟨hotels.length, 1⟩)))])]),
        ("hoteis", .arr (hotels.map .obj))]

/-- `DataConsolidator.normalize_site_data(site_data, site)`. -/
def normalizeSiteData (site_data : PyDict) (site : String) :
    Option PyDict := do
  let hotels ← normalizeHotels site_data site
  siteReport site site_data hotels

/-- The fixed processing order of `generate_consolidated_json`. -/
def siteOrder : List String := ["tripadvisor", "booking", "google", "decolar"]

/-- The loop state of `generate_consolidated_json`: the `sites` mapping
under construction, `all_ratings`, `total_reviews`, `total_hotels`. -/
structure SitesAcc where
  sites : PyDict
  allRatings : List PyFloat
  totalReviews : Int
  totalHotels : Int

/-- The per-site loop of `generate_consolidated_json`: for each site in
order, `load_site_data` (modelled by the `load` argument); a site with
no data is skipped; otherwise the site is normalized (an exception
there, `none`, propagates) and the global statistics are extended. -/
def goSites (load : String → Option PyDict) :
    SitesAcc → List String → Option SitesAcc
  | acc, [] => some acc
  | acc, s :: rest =>
    match load s with
    | none => goSites load acc rest
    | some sd =>
      (normalizeHotels sd s).bind (fun hotels =>
        (siteReport s sd hotels).bind (fun report =>
          goSites load
            ⟨dictSet acc.sites s (.obj report),
             acc.allRatings ++ hotels.map ratingOf,
             acc.totalReviews + sumReviews hotels,
             acc.totalHotels + hotels.length⟩ rest))

/-- Python `sum` of a list of floats. -/
def sumFloats (xs : List PyFloat) : PyFloat :=
  xs.foldl PyFloat.add ⟨0, 1⟩

/-- The consolidated dict built by `generate_consolidated_json`
(metadata defaults overwritten by the final `update`), as a function of
the loaded per-site data and of the consolidation timestamp.
`rating_medio_geral` over an empty rating list is the int `0`. -/
def consolidatedData (load : String → Option PyDict) (now : String) :
    Option PyDict := do
  let acc ← goSites load ⟨[], [], 0, 0⟩ siteOrder
  pure [("metadata", .obj [
          ("timestamp_consolidacao", .str now),
          ("versao_sistema", .str "2.0.0-multi-site"),
          ("total_sites", .int acc.sites.length),
          ("total_hoteis", .int acc.totalHotels),
          ("total_avaliacoes", .int acc.totalReviews),
          ("rating_medio_geral",
            if acc.allRatings.isEmpty then .int 0
            else .float (pyRound2
              ((sumFloats acc.allRatings).div ⟨acc.allRatings.length, 1⟩)))]),
        ("sites", .obj acc.sites)]

/-- `DataConsolidator.generate_consolidated_json`: build the
consolidated dict (an exception propagates as `none`), then write it to
`{dir}/scraper_dados_{timestamp}.json`; the write is guarded, so a
write failure (`writeOk = false`) yields the return value `None` while
a successful write returns the new file's path.  The two timestamp
renderings (`isoformat` in the content, `strftime` in the filename) are
the `nowIso`/`nowFile` inputs. -/
def generateConsolidatedJson (load : String → Option PyDict)
    (nowIso nowFile : String) (writeOk : Bool) (dir : String) :
    Option (Option String × PyDict) :=
  (consolidatedData load nowIso).map (fun data =>
    (if writeOk then some (dir ++ "/scraper_dados_" ++ nowFile ++ ".json")
     else none, data))

/-- Field access on the consolidated report's `metadata`. -/
def metaField (d : PyDict) (k : String) : Option JVal :=
  match List.lookup "metadata" d with
  | some (.obj md) => List.lookup k md
  | _ => none

/-- The key list of the consolidated report's `sites` mapping. -/
def sitesKeys (d : PyDict) : List String :=
  match List.lookup "sites" d with
  | some (.obj m) => m.map Prod.fst
  | _ => []

/-- The `extraction_stats` entry of a site report's metadata. -/
def statsField (d : PyDict) (k : String) : Option JVal :=
  match metaField d "extraction_stats" with
  | some (.obj st) => List.lookup k st
  | _ => none

/-- A file visible to `load_site_data`: its path, its filesystem
creation time, and the outcome of opening-and-JSON-parsing it (`none`
models `json.load` raising). -/
structure FsFile where
  name : String
  ctime : Int
  content : Option JVal

/-- Whether a path matches the glob pattern
`{dir}/{site}_dados_*.json` (`*` matches any run of non-separator
characters, possibly empty). -/
def matchesPattern (dir site name : String) : Bool :=
  let pre := (dir ++ "/" ++ site ++ "_dados_").data
  let suf := ".json".data
  let n := name.data
  pre.isPrefixOf n && suf.isSuffixOf n && pre.length + suf.length ≤ n.length
    && !((n.drop pre.length).take (n.length - pre.length - suf.length)).contains '/'

/-- Python `max(files, key=getctime)`: keep the current maximum,
replacing it only on a strictly larger key (first maximum wins ties). -/
def maxByCtime (f : FsFile) : List FsFile → FsFile
  | [] => f
  | g :: gs => maxByCtime (if f.ctime < g.ctime then g else f) gs

/-- `DataConsolidator.load_site_data(site, results_dir)` over a
directory listing: glob the per-site pattern; with no match return
`None`; otherwise open and parse the file with the latest creation
time, returning `None` if parsing raises (the guarded `except`). -/
def loadSiteData (files : List FsFile) (site dir : String) : Option JVal :=
  match files.filter (fun f => matchesPattern dir site f.name) with
  | [] => none
  | f :: fs => (maxByCtime f fs).content

/-- The state of Python's global `random` generator: the seed it was
last seeded with and the number of draws made since.  The generator's
output is abstracted by a stream parameter `u : Int → ℕ → PyFloat`
(value in `[0, 1)` of draw number `k` after seeding with `s`). -/
structure RandSt where
  seed : Int
  pos : ℕ

/-- `random.seed(n)`. -/
def seedWith (n : Int) : RandSt := ⟨n, 0⟩

/-- `random.uniform(a, b) = a + (b - a) * random()`, consuming one draw. -/
def randUniform (u : Int → ℕ → PyFloat) (a b : PyFloat) (st : RandSt) :
    PyFloat × RandSt :=
  (a.add ((b.sub a).mul (u st.seed st.pos)), ⟨st.seed, st.pos + 1⟩)

/-- `random.randint(a, b)` (both ends inclusive), consuming one draw. -/
def randInt (u : Int → ℕ → PyFloat) (a b : Int) (st : RandSt) :
    Int × RandSt :=
  (a + (((PyFloat.ofInt (b - a + 1)).mul (u st.seed st.pos)).floor),
   ⟨st.seed, st.pos + 1⟩)

/-- `BookingScraper._get_fallback_data(hotel_id, hotel_name)`:
seed from `hash(hotel_name)` (the process's string hash, abstracted by
the `hash` argument), draw a rating in `(8.5, 9.3)` rounded to one
decimal and a review count in `(500, 3000)`, reset the seed from OS
entropy (`random.seed()`, the `entropy` argument), then draw and apply
a rating variation in `(-0.1, 0.1)` and a review variation in
`(-50, 100)` from the re-seeded stream. -/
def bookingGetFallbackData (u : Int → ℕ → PyFloat) (hash : String → Int)
    (entropy : Int) (hotel_name : String) :
    (PyFloat × Int × String) × RandSt :=
  let st := seedWith (hash hotel_name)
  let d1 := randUniform u ⟨85, 10⟩ ⟨93, 10⟩ st
  let rating := pyRound1 d1.1
  let d2 := randInt u 500 3000 d1.2
  let reviews := d2.1
  let st2 := seedWith entropy
  let d3 := randUniform u ⟨-1, 10⟩ ⟨1, 10⟩ st2
  let ratingVariation := d3.1
  let d4 := randInt u (-50) 100 d3.2
  let reviewVariation := d4.1
  ((pyRound1 (pymax ⟨1, 1⟩ (pymin ⟨10, 1⟩ (rating.add ratingVariation))),
    max 1 (reviews + reviewVariation), "fallback_realistic"), d4.2)

/-- `GoogleTravelScraper._get_fallback_data(hotel_name)`: seed from
`hash(hotel_name)`, draw a rating in `(4.0, 4.9)` rounded to one
decimal and a review count in `(100, 2500)`, then reset the seed from
OS entropy and return. -/
def googleGetFallbackData (u : Int → ℕ → PyFloat) (hash : String → Int)
    (entropy : Int) (hotel_name : String) :
    (String × PyFloat × Int × String × String) × RandSt :=
  let st := seedWith (hash hotel_name)
  let d1 := randUniform u ⟨40, 10⟩ ⟨49, 10⟩ st
  let rating := pyRound1 d1.1
  let d2 := randInt u 100 2500 d1.2
  let reviews := d2.1
  let st2 := seedWith entropy
  ((hotel_name, rating, reviews,
    "https://www.google.com/search?q=" ++ pyReplace hotel_name " " "+",
    "fallback_realistic"), st2)

/-- `DecolarScraper._get_realistic_fallback_data(hotel_id)`: seed from
`hash(hotel_id)`, draw a rating in `(8.0, 9.5)` rounded to one decimal
and a review count in `(150, 600)`, then reset the seed from OS entropy
and return. -/
def decolarGetFallbackData (u : Int → ℕ → PyFloat) (hash : String → Int)
    (entropy : Int) (hotel_id : String) :
    (PyFloat × Int × String) × RandSt :=
  let st := seedWith (hash hotel_id)
  let d1 := randUniform u ⟨80, 10⟩ ⟨95, 10⟩ st
  let rating := pyRound1 d1.1
  let d2 := randInt u 150 600 d1.2
  let reviews := d2.1
  let st2 := seedWith entropy
  ((rating, reviews, "generated_realistic"), st2)

/-! Helper lemmas shared by the normalizer theorems. -/

/-- All four site branches update the base dict with the same key
sequence; the net effect replaces each field in place and leaves
`site` at its position. -/
lemma dictUpdate_baseNormalized (site : String)
    (v1 v2 v3 v4 v5 v6 v7 v8 v9 v10 : JVal) :
    dictUpdate (baseNormalized site)
      [("hotel_id", v1), ("hotel_name", v2), ("rating", v3),
       ("review_count", v4), ("max_rating", v5), ("url", v6),
       ("source", v7), ("data_source", v8), ("extraction_timestamp", v9),
       ("additional_info", v10)] =
      [("hotel_id", v1), ("hotel_name", v2), ("rating", v3),
       ("review_count", v4), ("max_rating", v5), ("url", v6),
       ("source", v7), ("data_source", v8), ("extraction_timestamp", v9),
       ("site", .str site), ("additional_info", v10)] := by
  simp [dictUpdate, dictSet, baseNormalized]

/-- Claim C1 (amended): for each of the four site keys and every raw
record, whenever `_normalize_hotel_data` returns (that is, whenever the
numeric coercions of the raw fields succeed), the result has exactly
the eleven invariant keys in order, with `rating` a float and
`review_count` an integer — not necessarily non-negative — and never a
raw string; a non-numeric raw `rating`/`review_count` value makes the
coercion raise instead of returning. -/
theorem c1_normalized_record_shape (hd : PyDict) (site : String) (r : PyDict)
    (h : normalizeHotelData hd site = some r) :
    r.map Prod.fst = ["hotel_id", "hotel_name", "rating", "review_count",
      "max_rating", "url", "source", "data_source", "extraction_timestamp",
      "site", "additional_info"]
    ∧ (∃ x, List.lookup "rating" r = some (.float x))
    ∧ (∃ n, List.lookup "review_count" r = some (.int n)) := by
  unfold normalizeHotelData at h
  split_ifs at h
  · obtain ⟨up, ht, hr⟩ := Option.map_eq_some'.mp h
    simp only [tripadvisorUpdate, Option.bind_eq_some, Option.pure_def,
      Option.some.injEq, bind] at ht
    obtain ⟨a, hf, b, hi, rfl⟩ := ht
    rw [dictUpdate_baseNormalized] at hr
    subst hr
    exact ⟨rfl, ⟨a, rfl⟩, ⟨b, rfl⟩⟩
  · obtain ⟨up, ht, hr⟩ := Option.map_eq_some'.mp h
    simp only [bookingUpdate, Option.bind_eq_some, Option.pure_def,
      Option.some.injEq, bind] at ht
    obtain ⟨nm, hn, a, hf, b, hi, m, hm, rfl⟩ := ht
    rw [dictUpdate_baseNormalized] at hr
    subst hr
    exact ⟨rfl, ⟨a, rfl⟩, ⟨b, rfl⟩⟩
  · obtain ⟨up, ht, hr⟩ := Option.map_eq_some'.mp h
    simp only [googleUpdate, Option.bind_eq_some, Option.pure_def,
      Option.some.injEq, bind] at ht
    obtain ⟨a, hf, b, hi, m, hm, rfl⟩ := ht
    rw [dictUpdate_baseNormalized] at hr
    subst hr
    exact ⟨rfl, ⟨a, rfl⟩, ⟨b, rfl⟩⟩
  · obtain ⟨up, ht, hr⟩ := Option.map_eq_some'.mp h
    simp only [decolarUpdate, Option.bind_eq_some, Option.pure_def,
      Option.some.injEq, bind] at ht
    obtain ⟨a, hf, b, hi, rfl⟩ := ht
    rw [dictUpdate_baseNormalized] at hr
    subst hr
    exact ⟨rfl, ⟨a, rfl⟩, ⟨b, rfl⟩⟩
  · obtain rfl := Option.some.inj h
    exact ⟨rfl, ⟨⟨0, 1⟩, rfl⟩, ⟨0, rfl⟩⟩

/-- Claim C1, witness: a concrete Google record with rating 4.7. -/
theorem c1_normalized_record_shape_witness :
    ((normalizeHotelData [("rating", .float ⟨47, 10⟩)] "google").getD
        []).map Prod.fst = ["hotel_id", "hotel_name", "rating",
      "review_count", "max_rating", "url", "source", "data_source",
      "extraction_timestamp", "site", "additional_info"]
    ∧ (∃ x, List.lookup "rating"
        ((normalizeHotelData [("rating", .float ⟨47, 10⟩)] "google").getD [])
        = some (.float x))
    ∧ (∃ n, List.lookup "review_count"
        ((normalizeHotelData [("rating", .float ⟨47, 10⟩)] "google").getD [])
        = some (.int n)) :=
  c1_normalized_record_shape [("rating", .float ⟨47, 10⟩)] "google"
    ((normalizeHotelData [("rating", .float ⟨47, 10⟩)] "google").getD []) rfl

/-- Claim C1, counterexample: a raw TripAdvisor record with
`review_count = -5` normalizes to a negative `review_count`, refuting
non-negativity; and a raw record with `rating = null` makes
`float(None)` raise, refuting "never raises". -/
theorem c1_counterexample :
    (normalizeHotelData [("review_count", .int (-5))] "tripadvisor").map
      (fun r => List.lookup "review_count" r) = some (some (.int (-5)))
    ∧ ((-5 : Int) < 0)
    ∧ normalizeHotelData [("rating", .null)] "tripadvisor" = none :=
  ⟨rfl, by decide, rfl⟩

/-- Claim C10: for a site key outside the four known ones,
`_normalize_hotel_data` skips every site branch and returns the base
dict unchanged: all eleven keys at their defaults, `site` set verbatim
to the argument, the raw record ignored entirely, and no exception. -/
theorem c10_unknown_site_defaults (site : String) (hd : PyDict)
    (h : site ∉ ["tripadvisor", "booking", "google", "decolar"]) :
    normalizeHotelData hd site =
      some [("hotel_id", .str ""), ("hotel_name", .str ""),
        ("rating", .float ⟨0, 1⟩), ("review_count", .int 0),
        ("max_rating", .float ⟨5, 1⟩), ("url", .str ""), ("source", .str ""),
        ("data_source", .str ""), ("extraction_timestamp", .str ""),
        ("site", .str site), ("additional_info", .obj [])] := by
  simp only [List.mem_cons, List.not_mem_nil, or_false, not_or] at h
  obtain ⟨h1, h2, h3, h4⟩ := h
  simp [normalizeHotelData, baseNormalized, h1, h2, h3, h4]

/-- Claim C10, witness: the unknown site `"expedia"` with a raw record
whose contents would otherwise be picked up. -/
theorem c10_unknown_site_defaults_witness :
    normalizeHotelData [("rating", .str "zzz"), ("hotel_id", .str "x")]
      "expedia" =
      some [("hotel_id", .str ""), ("hotel_name", .str ""),
        ("rating", .float ⟨0, 1⟩), ("review_count", .int 0),
        ("max_rating", .float ⟨5, 1⟩), ("url", .str ""), ("source", .str ""),
        ("data_source", .str ""), ("extraction_timestamp", .str ""),
        ("site", .str "expedia"), ("additional_info", .obj [])] :=
  c10_unknown_site_defaults "expedia"
    [("rating", .str "zzz"), ("hotel_id", .str "x")] (by decide)

/-- Claim C3 (amended): `max_rating` is a per-site constant only for
TripAdvisor (5.0) and Decolar (10.0); both Booking and Google read
`max_rating` from the raw record, with defaults 10.0 and 5.0
respectively, so for Google the raw `max_rating` value does affect the
output. -/
theorem c3_max_rating_policy :
    (∀ hd r, normalizeHotelData hd "tripadvisor" = some r →
      List.lookup "max_rating" r = some (.float ⟨5, 1⟩))
    ∧ (∀ hd r, normalizeHotelData hd "decolar" = some r →
      List.lookup "max_rating" r = some (.float ⟨10, 1⟩))
    ∧ (∀ hd r, normalizeHotelData hd "booking" = some r →
      ∃ x, pyFloat (dictGet hd "max_rating" (.float ⟨10, 1⟩)) = some x
        ∧ List.lookup "max_rating" r = some (.float x))
    ∧ (∀ hd r, normalizeHotelData hd "google" = some r →
      ∃ x, pyFloat (dictGet hd "max_rating" (.float ⟨5, 1⟩)) = some x
        ∧ List.lookup "max_rating" r = some (.float x)) := by
  refine ⟨fun hd r h => ?_, fun hd r h => ?_, fun hd r h => ?_,
    fun hd r h => ?_⟩
  · simp only [normalizeHotelData, reduceIte] at h
    obtain ⟨up, ht, hr⟩ := Option.map_eq_some'.mp h
    simp only [tripadvisorUpdate, Option.bind_eq_some, Option.pure_def,
      Option.some.injEq, bind] at ht
    obtain ⟨a, hf, b, hi, rfl⟩ := ht
    rw [dictUpdate_baseNormalized] at hr
    subst hr
    rfl
  · simp only [normalizeHotelData, reduceIte] at h
    obtain ⟨up, ht, hr⟩ := Option.map_eq_some'.mp h
    simp only [decolarUpdate, Option.bind_eq_some, Option.pure_def,
      Option.some.injEq, bind] at ht
    obtain ⟨a, hf, b, hi, rfl⟩ := ht
    rw [dictUpdate_baseNormalized] at hr
    subst hr
    rfl
  · simp only [normalizeHotelData, reduceIte] at h
    obtain ⟨up, ht, hr⟩ := Option.map_eq_some'.mp h
    simp only [bookingUpdate, Option.bind_eq_some, Option.pure_def,
      Option.some.injEq, bind] at ht
    obtain ⟨nm, hn, a, hf, b, hi, m, hm, rfl⟩ := ht
    rw [dictUpdate_baseNormalized] at hr
    subst hr
    exact ⟨m, hm, rfl⟩
  · simp only [normalizeHotelData, reduceIte] at h
    obtain ⟨up, ht, hr⟩ := Option.map_eq_some'.mp h
    simp only [googleUpdate, Option.bind_eq_some, Option.pure_def,
      Option.some.injEq, bind] at ht
    obtain ⟨a, hf, b, hi, m, hm, rfl⟩ := ht
    rw [dictUpdate_baseNormalized] at hr
    subst hr
    exact ⟨m, hm, rfl⟩

/-- Claim C3, witness: concrete records for all four sites, with the
Booking and Google defaults exercised on records lacking
`max_rating`. -/
theorem c3_max_rating_policy_witness :
    List.lookup "max_rating"
      ((normalizeHotelData [] "tripadvisor").getD []) = some (.float ⟨5, 1⟩)
    ∧ List.lookup "max_rating"
      ((normalizeHotelData [] "decolar").getD []) = some (.float ⟨10, 1⟩)
    ∧ (∃ x, pyFloat (dictGet [("hotel_name", .str "A")] "max_rating"
        (.float ⟨10, 1⟩)) = some x
        ∧ List.lookup "max_rating"
          ((normalizeHotelData [("hotel_name", .str "A")] "booking").getD [])
          = some (.float x))
    ∧ (∃ x, pyFloat (dictGet [] "max_rating" (.float ⟨5, 1⟩)) = some x
        ∧ List.lookup "max_rating"
          ((normalizeHotelData [] "google").getD []) = some (.float x)) :=
  ⟨c3_max_rating_policy.1 [] ((normalizeHotelData [] "tripadvisor").getD [])
      rfl,
   c3_max_rating_policy.2.1 [] ((normalizeHotelData [] "decolar").getD [])
      rfl,
   c3_max_rating_policy.2.2.1 [("hotel_name", .str "A")]
      ((normalizeHotelData [("hotel_name", .str "A")] "booking").getD []) rfl,
   c3_max_rating_policy.2.2.2 []
      ((normalizeHotelData [] "google").getD []) rfl⟩

/-- Claim C3, counterexample: a raw Google record carrying
`max_rating = 7.0` yields a normalized `max_rating` of 7.0, not the
claimed per-site constant 5.0, so the raw field does affect the output
for a non-Booking site. -/
theorem c3_counterexample :
    (normalizeHotelData [("max_rating", .float ⟨7, 1⟩)] "google").map
      (fun r => List.lookup "max_rating" r) = some (some (.float ⟨7, 1⟩))
    ∧ (normalizeHotelData [] "google").map
      (fun r => List.lookup "max_rating" r) = some (some (.float ⟨5, 1⟩))
    ∧ (PyFloat.mk 7 1).toRat ≠ (PyFloat.mk 5 1).toRat :=
  ⟨rfl, rfl, by norm_num [PyFloat.toRat]⟩

/-- The hotel-id synthesis as the claim words it (for comparison with
the code): lower-case, replace spaces with underscores, strip a single
LEADING `"hotel_"` token, then transliterate `ç` and `ã`. -/
def generateHotelIdSpecLeading (hotel_name : String) : String :=
  let s := pyReplace (pyLower hotel_name) " " "_"
  let s := if "hotel_".data.isPrefixOf s.data then ⟨s.data.drop 6⟩ else s
  pyReplace (pyReplace s "ç" "c") "ã" "a"

/-- Claim C4, counterexample: on `"Grand Hotel Paris"` the code removes
the inner `"hotel_"` occurrence (`str.replace` removes every
occurrence), producing `"grand_paris"`, while the claimed
leading-token-only rule would leave `"grand_hotel_paris"`. -/
theorem c4_counterexample :
    generateHotelId "Grand Hotel Paris" = "grand_paris"
    ∧ generateHotelIdSpecLeading "Grand Hotel Paris" = "grand_hotel_paris"
    ∧ ("grand_paris" : String) ≠ "grand_hotel_paris" :=
  ⟨by decide, by decide, by decide⟩

/-- Claim C4 (amended): for Booking the normalized `hotel_id` is
synthesized from the raw `hotel_name` by lower-casing, replacing
spaces with underscores, removing EVERY occurrence of the `"hotel_"`
token, and transliterating exactly `ç`→`c` and `ã`→`a`; for the other
three sites `hotel_id` is taken verbatim from the raw record (default
`""`); in particular `"Hotel São João"` yields `"sao_joao"` and a
`ç`-name is handled as shown. -/
theorem c4_hotel_id_policy :
    (∀ hd nm r, List.lookup "hotel_name" hd = some (.str nm) →
      normalizeHotelData hd "booking" = some r →
      List.lookup "hotel_id" r = some (.str (generateHotelId nm)))
    ∧ generateHotelId "Hotel São João" = "sao_joao"
    ∧ generateHotelId "Hotel Cachaça Palace" = "cachaca_palace"
    ∧ (∀ hd r, normalizeHotelData hd "tripadvisor" = some r →
      List.lookup "hotel_id" r = some (dictGet hd "hotel_id" (.str "")))
    ∧ (∀ hd r, normalizeHotelData hd "google" = some r →
      List.lookup "hotel_id" r = some (dictGet hd "hotel_id" (.str "")))
    ∧ (∀ hd r, normalizeHotelData hd "decolar" = some r →
      List.lookup "hotel_id" r = some (dictGet hd "hotel_id" (.str ""))) := by
  refine ⟨fun hd nm r hnm h => ?_, by decide, by decide,
    fun hd r h => ?_, fun hd r h => ?_, fun hd r h => ?_⟩
  · simp only [normalizeHotelData, reduceIte] at h
    obtain ⟨up, ht, hr⟩ := Option.map_eq_some'.mp h
    simp only [bookingUpdate, Option.bind_eq_some, Option.pure_def,
      Option.some.injEq, bind] at ht
    obtain ⟨nm2, hn, a, hf, b, hi, m, hm, rfl⟩ := ht
    rw [dictUpdate_baseNormalized] at hr
    subst hr
    have : nm2 = nm := by
      simp [dictGet, hnm, asStr] at hn
      exact hn.symm
    subst this
    rfl
  · simp only [normalizeHotelData, reduceIte] at h
    obtain ⟨up, ht, hr⟩ := Option.map_eq_some'.mp h
    simp only [tripadvisorUpdate, Option.bind_eq_some, Option.pure_def,
      Option.some.injEq, bind] at ht
    obtain ⟨a, hf, b, hi, rfl⟩ := ht
    rw [dictUpdate_baseNormalized] at hr
    subst hr
    rfl
  · simp only [normalizeHotelData, reduceIte] at h
    obtain ⟨up, ht, hr⟩ := Option.map_eq_some'.mp h
    simp only [googleUpdate, Option.bind_eq_some, Option.pure_def,
      Option.some.injEq, bind] at ht
    obtain ⟨a, hf, b, hi, m, hm, rfl⟩ := ht
    rw [dictUpdate_baseNormalized] at hr
    subst hr
    rfl
  · simp only [normalizeHotelData, reduceIte] at h
    obtain ⟨up, ht, hr⟩ := Option.map_eq_some'.mp h
    simp only [decolarUpdate, Option.bind_eq_some, Option.pure_def,
      Option.some.injEq, bind] at ht
    obtain ⟨a, hf, b, hi, rfl⟩ := ht
    rw [dictUpdate_baseNormalized] at hr
    subst hr
    rfl

/-- Claim C4, witness: the claim's own Booking example record. -/
theorem c4_hotel_id_policy_witness :
    List.lookup "hotel_id"
      ((normalizeHotelData [("hotel_name", .str "Hotel São João")]
          "booking").getD [])
      = some (.str (generateHotelId "Hotel São João"))
    ∧ List.lookup "hotel_id"
      ((normalizeHotelData [("hotel_id", .str "g123")] "google").getD [])
      = some (dictGet [("hotel_id", .str "g123")] "hotel_id" (.str "")) :=
  ⟨c4_hotel_id_policy.1 [("hotel_name", .str "Hotel São João")]
      "Hotel São João"
      ((normalizeHotelData [("hotel_name", .str "Hotel São João")]
          "booking").getD []) rfl rfl,
   c4_hotel_id_policy.2.2.2.2.1 [("hotel_id", .str "g123")]
      ((normalizeHotelData [("hotel_id", .str "g123")] "google").getD [])
      rfl⟩

/-- Loading only empty hotel lists leaves the global rating list empty
and never fails. -/
lemma goSites_emptyHotels (load : String → Option PyDict)
    (hload : ∀ s, load s = none ∨ load s = some [("hoteis", .arr [])]) :
    ∀ (l : List String) (acc : SitesAcc),
      ∃ acc2, goSites load acc l = some acc2
        ∧ acc2.allRatings = acc.allRatings := by
  intro l
  induction l with
  | nil => exact fun acc => ⟨acc, rfl, rfl⟩
  | cons s rest ih =>
    intro acc
    rcases hload s with hs | hs
    · simpa [goSites, hs] using ih acc
    · obtain ⟨rep, hr⟩ : ∃ rep,
          siteReport s [("hoteis", .arr [])] [] = some rep := ⟨_, rfl⟩
      simp only [goSites, hs,
        show normalizeHotels [("hoteis", .arr [])] s = some [] from rfl, hr,
        Option.some_bind]
      simpa [sumReviews] using ih ⟨dictSet acc.sites s (.obj rep),
        acc.allRatings, acc.totalReviews, acc.totalHotels⟩

/-- Claim C5: aggregating an empty hotel list yields mean rating `0`
and review sum `0` with no fault: per site, a report over an empty
hotel list has `rating_medio = 0` and `total_avaliacoes = 0`; globally,
when every present site contributes an empty hotel list,
`rating_medio_geral = 0`. -/
theorem c5_empty_aggregation :
    (∀ site sd r, siteReport site sd [] = some r →
      statsField r "rating_medio" = some (.int 0)
      ∧ statsField r "total_avaliacoes" = some (.int 0))
    ∧ (∀ (load : String → Option PyDict) (t : String),
      (∀ s, load s = none ∨ load s = some [("hoteis", .arr [])]) →
      (consolidatedData load t).map (fun d => metaField d "rating_medio_geral")
        = some (some (.int 0))) := by
  constructor
  · intro site sd r h
    simp only [siteReport, Option.bind_eq_some, Option.pure_def,
      Option.some.injEq, bind] at h
    obtain ⟨md, hmd, rfl⟩ := h
    exact ⟨rfl, rfl⟩
  · intro load t hload
    obtain ⟨acc2, hgo, hra⟩ :=
      goSites_emptyHotels load hload siteOrder ⟨[], [], 0, 0⟩
    simp [consolidatedData, hgo, metaField, List.lookup, hra]

/-- Claim C5, witness: a concrete empty TripAdvisor report, and a run
in which TripAdvisor and Google are present with empty hotel lists. -/
theorem c5_empty_aggregation_witness :
    (statsField ((siteReport "tripadvisor" [] []).getD []) "rating_medio"
        = some (.int 0)
      ∧ statsField ((siteReport "tripadvisor" [] []).getD [])
        "total_avaliacoes" = some (.int 0))
    ∧ (consolidatedData
        (fun s => if s = "tripadvisor" || s = "google" then
          some [("hoteis", .arr [])] else none) "t").map
        (fun d => metaField d "rating_medio_geral")
      = some (some (.int 0)) :=
  ⟨c5_empty_aggregation.1 "tripadvisor" []
      ((siteReport "tripadvisor" [] []).getD []) rfl,
   c5_empty_aggregation.2
      (fun s => if s = "tripadvisor" || s = "google" then
        some [("hoteis", .arr [])] else none) "t"
      (fun s => by by_cases h : s = "tripadvisor" || s = "google" <;>
        simp [h])⟩

/-- Setting a fresh key appends it to the key list. -/
lemma dictSet_keys_fresh (d : PyDict) (k : String) (v : JVal)
    (h : k ∉ d.map Prod.fst) :
    (dictSet d k v).map Prod.fst = d.map Prod.fst ++ [k] := by
  have hc : d.any (fun p => p.1 == k) = false := by
    by_contra hc
    rw [Bool.not_eq_false, List.any_eq_true] at hc
    obtain ⟨p, hp, he⟩ := hc
    exact h (eq_of_beq he ▸ List.mem_map_of_mem Prod.fst hp)
  simp [dictSet, hc]

/-- The per-site loop extends the `sites` key list with exactly the
sites whose data is present, in processing order. -/
lemma goSites_keys (load : String → Option PyDict) :
    ∀ (l : List String) (acc res : SitesAcc), l.Nodup →
      (∀ s ∈ l, s ∉ acc.sites.map Prod.fst) →
      goSites load acc l = some res →
      res.sites.map Prod.fst
        = acc.sites.map Prod.fst ++ l.filter (fun s => (load s).isSome) := by
  intro l
  induction l with
  | nil =>
    intro acc res _ _ h
    obtain rfl : acc = res := Option.some.inj h
    simp
  | cons s rest ih =>
    intro acc res hnd hfresh h
    rcases hl : load s with _ | sd
    · simp only [goSites, hl] at h
      rw [ih acc res (List.nodup_cons.mp hnd).2
        (fun s2 h2 => hfresh s2 (List.mem_cons_of_mem s h2)) h]
      simp [hl]
    · simp only [goSites, hl, Option.bind_eq_some] at h
      obtain ⟨hotels, hn, rep, hr, h⟩ := h
      have hkeys := dictSet_keys_fresh acc.sites s (.obj rep)
        (hfresh s (List.mem_cons_self s rest))
      have hfresh2 : ∀ s2 ∈ rest,
          s2 ∉ (dictSet acc.sites s (.obj rep)).map Prod.fst := by
        intro s2 h2
        rw [hkeys]
        simp only [List.mem_append, List.mem_singleton, not_or]
        exact ⟨hfresh s2 (List.mem_cons_of_mem s h2),
          fun e => (List.nodup_cons.mp hnd).1 (e ▸ h2)⟩
      rw [ih _ res (List.nodup_cons.mp hnd).2 hfresh2 h, hkeys]
      simp [hl]

/-- Claim C6: the consolidated report's `sites` mapping has exactly the
keys of the present sites, in the fixed processing order `tripadvisor,
booking, google, decolar`; an absent site leaves no entry and causes no
failure; and `metadata.total_sites` equals the number of present
sites. -/
theorem c6_sites_present (load : String → Option PyDict) (t : String)
    (d : PyDict) (h : consolidatedData load t = some d) :
    sitesKeys d = siteOrder.filter (fun s => (load s).isSome)
    ∧ metaField d "total_sites"
      = some (.int (siteOrder.filter (fun s => (load s).isSome)).length) := by
  simp only [consolidatedData, Option.bind_eq_some, Option.pure_def,
    Option.some.injEq, bind] at h
  obtain ⟨acc, hgo, rfl⟩ := h
  have hkeys := goSites_keys load siteOrder ⟨[], [], 0, 0⟩ acc
    (by decide) (by simp) hgo
  simp only [List.map_nil, List.nil_append] at hkeys
  constructor
  · simpa [sitesKeys] using hkeys
  · have hlen : acc.sites.length
        = (siteOrder.filter (fun s => (load s).isSome)).length := by
      rw [← hkeys, List.length_map]
    simp [metaField, hlen, List.lookup]

/-- Claim C6, witness: TripAdvisor and Google present (2 of 4 raw
files), Booking and Decolar absent. -/
theorem c6_sites_present_witness :
    sitesKeys ((consolidatedData
        (fun s => if s = "tripadvisor" || s = "google" then
          some [("hoteis", .arr [])] else none) "t").getD [])
      = siteOrder.filter (fun s =>
          ((fun s => if s = "tripadvisor" || s = "google" then
            some ([("hoteis", JVal.arr [])] : PyDict) else none) s).isSome)
    ∧ metaField ((consolidatedData
        (fun s => if s = "tripadvisor" || s = "google" then
          some [("hoteis", .arr [])] else none) "t").getD []) "total_sites"
      = some (.int (siteOrder.filter (fun s =>
          ((fun s => if s = "tripadvisor" || s = "google" then
            some ([("hoteis", JVal.arr [])] : PyDict) else none) s).isSome)).length) :=
  c6_sites_present
    (fun s => if s = "tripadvisor" || s = "google" then
      some [("hoteis", .arr [])] else none) "t"
    ((consolidatedData (fun s => if s = "tripadvisor" || s = "google" then
      some [("hoteis", .arr [])] else none) "t").getD []) rfl

/-- The per-site loop's global rating list is the concatenation, in
site order, of the per-hotel ratings of each present site. -/
lemma goSites_allRatings (load : String → Option PyDict) :
    ∀ (l : List String) (acc res : SitesAcc),
      goSites load acc l = some res →
      res.allRatings = acc.allRatings
        ++ (l.map (fun s =>
            match load s with
            | none => []
            | some sd => ((normalizeHotels sd s).getD []).map ratingOf)).flatten := by
  intro l
  induction l with
  | nil =>
    intro acc res h
    obtain rfl : acc = res := Option.some.inj h
    simp
  | cons s rest ih =>
    intro acc res h
    rcases hl : load s with _ | sd
    · simp only [goSites, hl] at h
      rw [ih acc res h]
      simp [hl]
    · simp only [goSites, hl, Option.bind_eq_some] at h
      obtain ⟨hotels, hn, rep, hr, h⟩ := h
      rw [ih _ res h]
      simp [hl, hn]

/-- The concatenation of all per-hotel ratings over the present sites,
in site order (not a mean of per-site means). -/
def ratingsConcat (load : String → Option PyDict) : List PyFloat :=
  (siteOrder.map (fun s =>
    match load s with
    | none => []
    | some sd => ((normalizeHotels sd s).getD []).map ratingOf)).flatten

/-- The TripAdvisor raw file of the end-to-end scenario: one hotel at
rating 4.5 with 89 reviews. -/
def c2TripRaw : PyDict :=
  [("metadata", .obj []), ("hoteis", .arr [.obj
    [("hotel_id", .str "ta1"), ("hotel_name", .str "Hotel Alpha"),
     ("rating", .float ⟨45, 10⟩), ("review_count", .int 89)]])]

/-- The Booking raw file of the end-to-end scenario: one hotel at
rating 9.1 with 1200 reviews (Booking's review-count key is
`reviews`). -/
def c2BookingRaw : PyDict :=
  [("metadata", .obj []), ("hoteis", .arr [.obj
    [("hotel_name", .str "Hotel Beta"),
     ("rating", .float ⟨91, 10⟩), ("reviews", .int 1200)]])]

/-- Loaded data of the end-to-end scenario: only TripAdvisor and
Booking raw files present. -/
def c2Load : String → Option PyDict :=
  fun s => if s = "tripadvisor" then some c2TripRaw
    else if s = "booking" then some c2BookingRaw else none

/-- Claim C2: the global mean rating is the (2-decimal-rounded) mean of
the concatenation of all per-hotel ratings across present sites, not a
mean of per-site means; and in the end-to-end scenario (TripAdvisor
4.5/89, Booking 9.1/1200) the report has `total_hoteis = 2`,
`total_avaliacoes = 1289` and
`rating_medio_geral = round((4.5 + 9.1) / 2, 2) = 6.8`. -/
theorem c2_global_mean_concat :
    (∀ (load : String → Option PyDict) (t : String) (d : PyDict),
      consolidatedData load t = some d →
      metaField d "rating_medio_geral" = some (
        if (ratingsConcat load).isEmpty then .int 0
        else .float (pyRound2 ((sumFloats (ratingsConcat load)).div
          ⟨(ratingsConcat load).length, 1⟩))))
    ∧ (consolidatedData c2Load "t").map (fun d =>
        (metaField d "total_hoteis", metaField d "total_avaliacoes",
         metaField d "rating_medio_geral"))
      = some (some (.int 2), some (.int 1289), some (.float ⟨680, 100⟩))
    ∧ pyRound2 (((PyFloat.mk 45 10).add ⟨91, 10⟩).div ⟨2, 1⟩) = ⟨680, 100⟩
    ∧ (PyFloat.mk 680 100).toRat = 6.8 := by
  refine ⟨?_, rfl, by decide, by norm_num [PyFloat.toRat]⟩
  intro load t d h
  simp only [consolidatedData, Option.bind_eq_some, Option.pure_def,
    Option.some.injEq, bind] at h
  obtain ⟨acc, hgo, rfl⟩ := h
  have hra : acc.allRatings = ratingsConcat load := by
    simpa [ratingsConcat] using
      goSites_allRatings load siteOrder ⟨[], [], 0, 0⟩ acc hgo
  simp [metaField, List.lookup, hra]

/-- Claim C2, witness: the universal statement applied to the
end-to-end scenario's loaded files. -/
theorem c2_global_mean_concat_witness :
    metaField ((consolidatedData c2Load "t").getD []) "rating_medio_geral"
      = some (
        if (ratingsConcat c2Load).isEmpty then .int 0
        else .float (pyRound2 ((sumFloats (ratingsConcat c2Load)).div
          ⟨(ratingsConcat c2Load).length, 1⟩))) :=
  c2_global_mean_concat.1 c2Load "t"
    ((consolidatedData c2Load "t").getD []) rfl

/-- The running maximum is one of the candidates. -/
lemma maxByCtime_mem : ∀ (fs : List FsFile) (f : FsFile),
    maxByCtime f fs ∈ f :: fs := by
  intro fs
  induction fs with
  | nil => intro f; simp [maxByCtime]
  | cons g gs ih =>
    intro f
    rcases List.mem_cons.mp (ih (if f.ctime < g.ctime then g else f))
      with he | hm
    · rw [maxByCtime, he]
      by_cases hc : f.ctime < g.ctime <;> simp [hc]
    · exact List.mem_cons_of_mem f (List.mem_cons_of_mem g hm)

/-- Every candidate's creation time is bounded by the running
maximum's. -/
lemma maxByCtime_ge : ∀ (fs : List FsFile) (f g : FsFile),
    g ∈ f :: fs → g.ctime ≤ (maxByCtime f fs).ctime := by
  intro fs
  induction fs with
  | nil =>
    intro f g hg
    rcases List.mem_cons.mp hg with he | hm
    · rw [he, maxByCtime]
    · cases hm
  | cons k ks ih =>
    intro f g hg
    rw [maxByCtime]
    rcases List.mem_cons.mp hg with he | hm
    · subst he
      refine le_trans ?_ (ih _ _ (List.mem_cons_self _ _))
      by_cases hc : g.ctime < k.ctime
      · simpa [hc] using le_of_lt hc
      · simp [hc]
    · rcases List.mem_cons.mp hm with he2 | hm2
      · subst he2
        refine le_trans ?_ (ih _ _ (List.mem_cons_self _ _))
        by_cases hc : f.ctime < g.ctime
        · simp [hc]
        · simpa [hc] using le_of_not_lt hc
      · exact ih _ g (List.mem_cons_of_mem _ hm2)

/-- Claim C7: `load_site_data` returns `None` when no file matches the
site's pattern; otherwise it selects a matching file of maximal
creation time and returns its parse result — the parsed data on
success, `None` when parsing raises.  It never propagates an error. -/
theorem c7_load_site_data_latest (files : List FsFile) (site dir : String) :
    (files.filter (fun f => matchesPattern dir site f.name) = [] →
      loadSiteData files site dir = none)
    ∧ (∀ f fs, files.filter (fun f => matchesPattern dir site f.name)
        = f :: fs →
      ∃ g, g ∈ files.filter (fun f => matchesPattern dir site f.name)
        ∧ (∀ g2 ∈ files.filter (fun f => matchesPattern dir site f.name),
            g2.ctime ≤ g.ctime)
        ∧ loadSiteData files site dir = g.content) := by
  constructor
  · intro h
    rw [loadSiteData, h]
  · intro f fs h
    refine ⟨maxByCtime f fs, ?_, ?_, ?_⟩
    · rw [h]; exact maxByCtime_mem fs f
    · intro g2 hg2
      rw [h] at hg2
      exact maxByCtime_ge fs f g2 hg2
    · rw [loadSiteData, h]

/-- Claim C7, witness: two matching Booking files (the second one
newer) and one non-matching Google file; the newer matching file is
selected. -/
theorem c7_load_site_data_latest_witness :
    ∃ g, g ∈ ([⟨"resultados/booking_dados_1.json", 5,
          some (.obj [("hoteis", .arr [])])⟩,
        ⟨"resultados/booking_dados_2.json", 9, some (.obj [])⟩,
        ⟨"resultados/google_dados_1.json", 99, some .null⟩] :
          List FsFile).filter
        (fun f => matchesPattern "resultados" "booking" f.name)
      ∧ (∀ g2 ∈ ([⟨"resultados/booking_dados_1.json", 5,
            some (.obj [("hoteis", .arr [])])⟩,
          ⟨"resultados/booking_dados_2.json", 9, some (.obj [])⟩,
          ⟨"resultados/google_dados_1.json", 99, some .null⟩] :
            List FsFile).filter
          (fun f => matchesPattern "resultados" "booking" f.name),
          g2.ctime ≤ g.ctime)
      ∧ loadSiteData
          [⟨"resultados/booking_dados_1.json", 5,
            some (.obj [("hoteis", .arr [])])⟩,
           ⟨"resultados/booking_dados_2.json", 9, some (.obj [])⟩,
           ⟨"resultados/google_dados_1.json", 99, some .null⟩]
          "booking" "resultados" = g.content :=
  (c7_load_site_data_latest
      [⟨"resultados/booking_dados_1.json", 5,
        some (.obj [("hoteis", .arr [])])⟩,
       ⟨"resultados/booking_dados_2.json", 9, some (.obj [])⟩,
       ⟨"resultados/google_dados_1.json", 99, some .null⟩]
      "booking" "resultados").2
    ⟨"resultados/booking_dados_1.json", 5, some (.obj [("hoteis", .arr [])])⟩
    [⟨"resultados/booking_dados_2.json", 9, some (.obj [])⟩] rfl

/-- Blank out the run-dependent `metadata.timestamp_consolidacao` field
of a consolidated report (the only content field that depends on the
run rather than on the input files). -/
def scrubTimestamp (d : PyDict) : PyDict :=
  d.map (fun p => if p.1 = "metadata" then
    (p.1, match p.2 with
      | .obj md => JVal.obj (md.map (fun q =>
          if q.1 = "timestamp_consolidacao" then (q.1, .str "") else q))
      | v => v)
    else p)

/-- Claim C8: `generate_consolidated_json` is deterministic in the
loaded input data and performs no I/O other than through them: two runs
at different timestamps produce contents that agree once the single
run-dependent timestamp field is blanked (the filename carries the
second timestamp); the returned value is the new file's path exactly
when the write succeeds, and `None` when the write fails. -/
theorem c8_deterministic_modulo_timestamp
    (load : String → Option PyDict) (t1 t2 f1 f2 dir : String)
    (wOk : Bool) :
    ((generateConsolidatedJson load t1 f1 wOk dir).map
        (fun r => scrubTimestamp r.2)
      = (generateConsolidatedJson load t2 f2 wOk dir).map
        (fun r => scrubTimestamp r.2))
    ∧ ((generateConsolidatedJson load t1 f1 true dir).map Prod.fst
      = (consolidatedData load t1).map
        (fun _ => some (dir ++ "/scraper_dados_" ++ f1 ++ ".json")))
    ∧ ((generateConsolidatedJson load t1 f1 false dir).map Prod.fst
      = (consolidatedData load t1).map (fun _ => none)) := by
  rcases hgo : goSites load ⟨[], [], 0, 0⟩ siteOrder with _ | acc <;>
    refine ⟨?_, ?_, ?_⟩ <;>
      simp [generateConsolidatedJson, consolidatedData, hgo, scrubTimestamp]

/-- A concrete PRNG output stream for the Booking counterexample:
draw 0 after seeding with 1 is one half, every other draw is zero. -/
def c9Stream : Int → ℕ → PyFloat :=
  fun s k => if s = 1 ∧ k = 0 then ⟨1, 2⟩ else ⟨0, 1⟩

/-- Claim C9, counterexample: Booking's `_get_fallback_data` draws a
rating variation and a review variation from the re-seeded
entropy-based stream AFTER `random.seed()` and applies them to the
returned values, so two fallback calls with the same hotel name (here
with OS entropy 0 and 1 at the reset) return different ratings: 8.4
versus 8.5. -/
theorem c9_counterexample :
    ((bookingGetFallbackData c9Stream (fun _ => 0) 0 "Hotel X").1.1).toRat
      ≠ ((bookingGetFallbackData c9Stream (fun _ => 0) 1 "Hotel X").1.1).toRat := by
  have h1 : (bookingGetFallbackData c9Stream (fun _ => 0) 0 "Hotel X").1.1
      = ⟨84, 10⟩ := by decide
  have h2 : (bookingGetFallbackData c9Stream (fun _ => 0) 1 "Hotel X").1.1
      = ⟨85, 10⟩ := by decide
  rw [h1, h2]
  norm_num [PyFloat.toRat]

/-- Claim C9 (amended): for the Google and Decolar adapters the
synthetic fallback is deterministic per hotel name (Google) and per
hotel id (Decolar): the name is hashed to seed the generator, the
rating and review count are drawn, and the seed is then reset from OS
entropy, so the returned data does not depend on the entropy and the
generator's final state does not depend on the name.  (Booking's
fallback applies a further entropy-drawn variation after the reset —
see the counterexample — and the TripAdvisor scraper has no synthetic
fallback at all.) -/
theorem c9_fallback_determinism :
    (∀ (u : Int → ℕ → PyFloat) (hash : String → Int) (e1 e2 : Int)
        (nm : String),
      (googleGetFallbackData u hash e1 nm).1
        = (googleGetFallbackData u hash e2 nm).1)
    ∧ (∀ (u : Int → ℕ → PyFloat) (hash : String → Int) (e : Int)
        (nm : String),
      (googleGetFallbackData u hash e nm).2 = seedWith e)
    ∧ (∀ (u : Int → ℕ → PyFloat) (hash : String → Int) (e1 e2 : Int)
        (hid : String),
      (decolarGetFallbackData u hash e1 hid).1
        = (decolarGetFallbackData u hash e2 hid).1)
    ∧ (∀ (u : Int → ℕ → PyFloat) (hash : String → Int) (e : Int)
        (hid : String),
      (decolarGetFallbackData u hash e hid).2 = seedWith e) :=
  ⟨fun _ _ _ _ _ => rfl, fun _ _ _ _ => rfl,
   fun _ _ _ _ _ => rfl, fun _ _ _ _ => rfl⟩
